import Mathlib

/-!
Shallow embedding of the Logistixai report-generation pipeline
(`backend/services/report_service.py`, `backend/agents/report_agent.py`,
`backend/agents/validator_agent.py`, `backend/agents/search_agent.py`)
and proofs about the control loop, the agents' fallback contracts and the
search deduplication.

LLM calls, JSON parsing and filesystem / vector-store side effects are
external inputs; each is modelled by the outcome it hands back to the
surrounding Python code (an exception, an unparseable payload, or a parsed
value), and the Python control flow around those outcomes is translated
directly.
-/

namespace Logistix

/-- A risk-level string is one of the four enumerated levels of the report
schema (`critical|high|medium|low` in the generator prompt). -/
def validRisk (s : String) : Prop :=
  s = "critical" ∨ s = "high" ∨ s = "medium" ∨ s = "low"

instance (s : String) : Decidable (validRisk s) := by
  unfold validRisk; infer_instance

/-- The `summary` section of a generated report. -/
structure Summary where
  total_changes : Int
  overall_risk : String
  key_takeaways : List String
deriving DecidableEq

/-- An entry of the `legal_changes` section. -/
structure LegalChange where
  title : String
  description : String
  effective_date : Option String
  affected_countries : List String
  risk_level : String
  source_url : String
deriving DecidableEq

/-- An entry of the `route_impacts` section. -/
structure RouteImpact where
  route_name : String
  impact_description : String
  risk_level : String
  recommended_actions : List String
deriving DecidableEq

/-- An entry of the `recommended_actions` section. -/
structure RecommendedAction where
  priority : String
  action : String
  deadline : Option String
deriving DecidableEq

/-- A draft report as the pipeline passes it around: a JSON object in the
Python code, so each of the four sections may be absent (`json.loads` output
is used as-is when it parses). -/
structure Draft where
  summary : Option Summary
  legal_changes : Option (List LegalChange)
  route_impacts : Option (List RouteImpact)
  recommended_actions : Option (List RecommendedAction)
deriving DecidableEq

/-- The minimum-schema invariant on a draft: all four sections present and
every risk-level string a valid enumerated level. -/
def draftMinSchema (d : Draft) : Prop :=
  d.summary.isSome = true ∧
  d.legal_changes.isSome = true ∧
  d.route_impacts.isSome = true ∧
  d.recommended_actions.isSome = true ∧
  (∀ s, d.summary = some s → validRisk s.overall_risk) ∧
  (∀ lc ∈ d.legal_changes.getD [], validRisk lc.risk_level) ∧
  (∀ ri ∈ d.route_impacts.getD [], validRisk ri.risk_level) ∧
  (∀ ra ∈ d.recommended_actions.getD [], validRisk ra.priority)

/-- The minimal valid report returned by
`ReportGeneratorAgent._generate_report` when parsing the model response as
JSON fails (report_agent.py lines 227-237). -/
def fallbackReportDraft : Draft :=
  { summary := some { total_changes := 0, overall_risk := "medium",
                      key_takeaways := ["Report generation in progress"] },
    legal_changes := some [],
    route_impacts := some [],
    recommended_actions := some [] }

/-- What happens inside `ReportGeneratorAgent._generate_report`: the LLM
call raises, or it returns text that `json.loads` rejects, or it returns
text that parses to a JSON object (read back as a `Draft` whose sections may
be absent). -/
inductive GenInternalOutcome where
  | llmRaises (err : String)
  | responseUnparseable (raw : String)
  | responseParsed (d : Draft)

/-- `ReportGeneratorAgent._generate_report`: an exception propagates; an
unparseable response is replaced by the minimal valid report; a parsed
response is returned as-is (no per-section repair). -/
def generateReportInner : GenInternalOutcome → Except String Draft
  | .llmRaises err => .error err
  | .responseUnparseable _ => .ok fallbackReportDraft
  | .responseParsed d => .ok d

/-- Result of `ReportGeneratorAgent.execute` as the controller sees it:
either `success=True` with a report, or `success=False` with an error. -/
inductive GenOutcome where
  | ok (d : Draft)
  | fail (err : String)

/-- Whether a generator result has `success=True`. -/
def GenOutcome.isOk : GenOutcome → Bool
  | .ok _ => true
  | .fail _ => false

/-- `ReportGeneratorAgent.execute`: wraps `_generate_report` in try/except,
turning an exception into `success=False` (report_agent.py lines 39-59). -/
def reportAgentExecute (o : GenInternalOutcome) : GenOutcome :=
  match generateReportInner o with
  | .ok d => .ok d
  | .error e => .fail e

/-- The judge payload parsed from the validator model's response. All keys
are optional (`setdefault` fills the four expected ones); a `success` key,
if the judge emits one, is kept and later collides with the `success` flag
of `ValidatorAgent.execute`'s result dictionary. -/
structure JudgePayload where
  is_approved : Option Bool
  quality_score : Option Int
  feedback : Option String
  issues : Option (List String)
  success : Option Bool

/-- What happens inside `ValidatorAgent._validate_report`: the judge call
(or anything else in the try block of `execute`) raises, or the response
text fails to parse as JSON, or it parses to a payload. -/
inductive JudgeOutcome where
  | raises (err : String)
  | malformed (raw : String)
  | parsed (p : JudgePayload)

/-- The dictionary `ValidatorAgent.execute` returns to the controller.
`issues` is optional because the except branch's dictionary has no
`issues` key (the controller reads it with `.get("issues", [])`). -/
structure ValidatorResult where
  success : Bool
  is_approved : Bool
  quality_score : Int
  feedback : String
  issues : Option (List String)

/-- `ValidatorAgent.execute` over `_validate_report` (validator_agent.py
lines 52-80 and 139-167): a raised exception yields the fail-open verdict
with score 0; an unparseable judge response yields the parse fallback with
score 80; a parsed payload gets `setdefault` applied to its four expected
keys, and in `{"success": True, **validation_result}` a `success` key of
the payload overrides the literal `True`. -/
def validatorExecute : JudgeOutcome → ValidatorResult
  | .raises _ =>
      { success := true, is_approved := true, quality_score := 0,
        feedback := "Validation skipped due to error", issues := none }
  | .malformed _ =>
      { success := true, is_approved := true, quality_score := 80,
        feedback := "Report meets quality standards", issues := some [] }
  | .parsed p =>
      { success := p.success.getD true,
        is_approved := p.is_approved.getD false,
        quality_score := p.quality_score.getD 0,
        feedback := p.feedback.getD "Validation incomplete",
        issues := some (p.issues.getD []) }

/-- One entry of `validation_history`, built by the controller from the
validator's result dictionary with `.get` defaults (report_service.py lines
117-124); the timestamp is dropped (wall-clock time is external). -/
structure ValidationEntry where
  iteration : Nat
  is_approved : Bool
  quality_score : Int
  feedback : String
  issues : List String
deriving DecidableEq

/-- How the generate/validate while-loop of
`ReportService.generate_report` ends: a normal exit (`break` or the loop
condition failing), or an exception raised because the generator reported
`success=False`. Both carry the iteration counter and accumulated history. -/
inductive LoopResult where
  | done (content : Option Draft) (count : Nat) (history : List ValidationEntry)
  | raised (err : String) (count : Nat) (history : List ValidationEntry)

/-- Iteration counter at loop exit. -/
def LoopResult.count : LoopResult → Nat
  | .done _ c _ => c
  | .raised _ c _ => c

/-- Validation history at loop exit. -/
def LoopResult.history : LoopResult → List ValidationEntry
  | .done _ _ h => h
  | .raised _ _ h => h

/-- The history entry the controller builds after validating iteration `i`
(report_service.py lines 117-124), reading the validator's dictionary with
`.get` defaults. -/
def mkEntry (v : ValidatorResult) (i : Nat) : ValidationEntry :=
  { iteration := i, is_approved := v.is_approved,
    quality_score := v.quality_score, feedback := v.feedback,
    issues := v.issues.getD [] }

/-- The while-loop of `ReportService.generate_report` (lines 92-139),
embedded with a fuel argument for structural recursion; `runLoop` below
supplies fuel `maxIter - count`, which by lines 92-93 bounds the number of
remaining passes. Each pass increments the counter, runs the generator
(raising on `success=False`), appends one history entry built from the
validator's result, then breaks on approval or on reaching the cap. -/
def runLoopAux (gen : Nat → GenOutcome) (val : Nat → ValidatorResult)
    (maxIter : Nat) :
    Nat → Nat → List ValidationEntry → Option Draft → Option String →
    LoopResult
  | 0, count, history, content, _ => .done content count history
  | fuel + 1, count, history, content, prevFeedback =>
    if count < maxIter then
      match gen (count + 1) with
      | .fail e => .raised ("Report generation failed: " ++ e) (count + 1) history
      | .ok d =>
        let v := val (count + 1)
        let history' := history ++ [mkEntry v (count + 1)]
        if v.is_approved then .done (some d) (count + 1) history'
        else if maxIter ≤ count + 1 then .done (some d) (count + 1) history'
        else runLoopAux gen val maxIter fuel (count + 1) history' (some d)
               (some v.feedback)
    else .done content count history

/-- The generate/validate loop started at iteration counter `count` with
accumulated `history`, `content` and `prevFeedback`. -/
def runLoop (gen : Nat → GenOutcome) (val : Nat → ValidatorResult)
    (maxIter count : Nat) (history : List ValidationEntry)
    (content : Option Draft) (prevFeedback : Option String) : LoopResult :=
  runLoopAux gen val maxIter (maxIter - count) count history content prevFeedback

/-- The external outcomes one call of `ReportService.generate_report`
depends on: the iteration cap, whether `search_agent.execute` reported
success, the per-iteration generator and validator results, and whether
each terminal side effect (saving the JSON file, indexing in ChromaDB,
rendering the PDF) raised (`some e`) or succeeded (`none`). -/
structure Env where
  maxIter : Nat
  searchOutcome : Option String
  gen : Nat → GenOutcome
  val : Nat → ValidatorResult
  persistOutcome : Option String
  indexOutcome : Option String
  pdfOutcome : Option String

/-- The report dictionary `generate_report` returns: the `final_report` of
the success path or the `failed_report` of the except path (which has no
content and no PDF fields). -/
structure FinalReport where
  status : String
  content : Option Draft
  iteration_count : Nat
  validation_history : List ValidationEntry
  error : Option String
  has_pdf : Option Bool

/-- The dictionary `ReportService.generate_report` returns. -/
structure ServiceResult where
  success : Bool
  report : FinalReport

/-- The except branch of `generate_report` (lines 242-267): a failed
record with status `"failed"`, the current iteration counter and history. -/
def mkFailed (e : String) (c : Nat) (h : List ValidationEntry) : ServiceResult :=
  { success := false,
    report := { status := "failed", content := none, iteration_count := c,
                validation_history := h, error := some e, has_pdf := none } }

/-- The message of the exception raised by the agent-construction step. -/
def agentConstructionError : String :=
  "TypeError: __init__() got an unexpected keyword argument 'api_key'"

/-- The agent-construction step of `generate_report` (report_service.py
lines 63-71). `SearchAgent.__init__` and `ReportGeneratorAgent.__init__`
take no `api_key` parameter (search_agent.py line 16, report_agent.py line
15), yet `generate_report` calls `SearchAgent(api_key=api_key)` (line 68)
and `ReportGeneratorAgent(api_key=api_key)` (line 70). On the fallback
path line 68 raises `TypeError`; on the MCP path `MCPSearchAgent` does
accept `api_key` but line 70 then raises the same `TypeError`. So this
step raises on every call, before the search phase. -/
def constructAgents : Except String Unit :=
  .error agentConstructionError

/-- The commit steps of `generate_report` after the loop (lines 156-240),
applied to the loop's content, counter and history: saving the JSON record
and indexing in ChromaDB sit inside the outer try, so their exceptions
fail the run; building the indexing metadata evaluates
`report_content.get("summary", {})` and so raises `AttributeError` when
the loop produced no content; only the PDF step (lines 180-227) has its
own try/except, whose failure merely clears the PDF fields. -/
def commitPhase (env : Env) (content : Option Draft) (c : Nat)
    (h : List ValidationEntry) : ServiceResult :=
  match env.persistOutcome with
  | some e => mkFailed e c h
  | none =>
    match content with
    | none => mkFailed "AttributeError: NoneType object has no attribute get" c h
    | some d =>
      match env.indexOutcome with
      | some e => mkFailed e c h
      | none =>
        { success := true,
          report := { status := "approved", content := some d,
                      iteration_count := c, validation_history := h,
                      error := none,
                      has_pdf := some env.pdfOutcome.isNone } }

/-- `ReportService.generate_report` (lines 36-267) in source order: inside
the try, agent construction (lines 63-71) — which raises `TypeError` on
every call, landing in the outer except with the initial counter 0 and
empty history — then the search phase (raising on `success=False`), the
generate/validate loop, and the commit phase. Everything after
`constructAgents` is unreachable in the current source, but is embedded
as written. -/
def generateReport (env : Env) : ServiceResult :=
  match constructAgents with
  | .error e => mkFailed e 0 []
  | .ok _ =>
    match env.searchOutcome with
    | some e => mkFailed ("Search failed: " ++ e) 0 []
    | none =>
      match runLoop env.gen env.val env.maxIter 0 [] none none with
      | .raised e c h => mkFailed e c h
      | .done content c h => commitPhase env content c h

/-- One web search result as returned by `mcp_client.search_web`. -/
structure SearchItem where
  url : String
  title : String
  snippet : String
deriving DecidableEq

/-- The URL-deduplication pass of `SearchAgent._execute_searches` (lines
130-138): walk the merged results, keep an item only if its URL was not
seen before. `seen` is the `seen_urls` set. -/
def dedupeGo (seen : List String) : List SearchItem → List SearchItem
  | [] => []
  | r :: rest =>
    if r.url ∈ seen then dedupeGo seen rest
    else r :: dedupeGo (r.url :: seen) rest

/-- `SearchAgent._execute_searches` (lines 115-138): per-query searches
whose exceptions are skipped (`none`), results concatenated in query order,
then deduplicated by URL keeping first-seen items. -/
def executeSearches (perQuery : List (Option (List SearchItem))) : List SearchItem :=
  dedupeGo [] (perQuery.filterMap id).flatten

/-- Outcome of the LLM re-ranking pass inside `SearchAgent._filter_results`:
the try block raised somewhere (model call, `json.loads`, iteration), or it
produced a list of URLs. -/
inductive RankOutcome where
  | errored
  | ranked (urls : List String)

/-- The dictionary comprehension `{r["url"]: r for r in search_results}`
followed by lookup: the item bound to `u`, which for repeated URLs is the
last one in the list (later comprehension entries overwrite earlier ones). -/
def lookupLast (rs : List SearchItem) (u : String) : Option SearchItem :=
  rs.reverse.find? (fun r => r.url == u)

/-- `SearchAgent._filter_results` (lines 140-183): at most 15 results pass
through unchanged; otherwise the ranked URLs are resolved against the
URL-to-item dictionary in ranking order (URLs not found are skipped, and a
URL repeated by the model is resolved repeatedly) and truncated to 15; if
the re-ranking pass raised, the first 15 results are returned. -/
def filterResults (rs : List SearchItem) (rank : RankOutcome) : List SearchItem :=
  if rs.length ≤ 15 then rs
  else
    match rank with
    | .errored => rs.take 15
    | .ranked urls => (urls.filterMap (lookupLast rs)).take 15

/-- The Gatherer's evidence output: `_execute_searches` then
`_filter_results`, as chained by `SearchAgent.execute` (lines 34-55). -/
def searchAgentGather (perQuery : List (Option (List SearchItem)))
    (rank : RankOutcome) : List SearchItem :=
  filterResults (executeSearches perQuery) rank

/-- No two items of the list share a URL. -/
def noDupUrls (rs : List SearchItem) : Prop :=
  (rs.map SearchItem.url).Nodup

instance (rs : List SearchItem) : Decidable (noDupUrls rs) := by
  unfold noDupUrls; infer_instance

/-- What happens inside `SearchAgent._generate_search_queries`: the LLM
call raises (it is outside the try block, so the exception propagates), or
`json.loads` rejects the response text, or it parses to a non-list value,
or it parses to a list of query strings. -/
inductive QueryGenOutcome where
  | llmRaises (err : String)
  | unparseable (raw : String)
  | parsedNonList
  | parsedList (qs : List String)

/-- The fixed fallback queries of `SearchAgent._generate_search_queries`
(lines 107-111), parameterized by the profile's company name. -/
def fallbackQueries (companyName : String) : List String :=
  ["logistics regulations " ++ companyName ++ " 2024",
   "EU transport law changes 2024",
   "cross-border cargo requirements Europe"]

/-- `SearchAgent._generate_search_queries` (lines 65-113): a parsed list is
returned truncated to 10 (even when empty); an unparseable response or a
non-list value falls through to the fixed fallback queries; an exception in
the model call propagates to `SearchAgent.execute`'s except branch. -/
def generateSearchQueries (o : QueryGenOutcome) (companyName : String) :
    Except String (List String) :=
  match o with
  | .llmRaises e => .error e
  | .unparseable _ => .ok (fallbackQueries companyName)
  | .parsedNonList => .ok (fallbackQueries companyName)
  | .parsedList qs => .ok (qs.take 10)

/-! ### Concrete instances used to exercise the model -/

/-- A validator result that approves (e.g. a parsed judge payload with
`is_approved=true` and score 90). -/
def approveVR : ValidatorResult :=
  { success := true, is_approved := true, quality_score := 90,
    feedback := "Report meets quality standards", issues := some [] }

/-- A validator result that rejects with feedback. -/
def rejectVR : ValidatorResult :=
  { success := true, is_approved := false, quality_score := 40,
    feedback := "Add route-specific analysis", issues := some ["too generic"] }

/-- An environment whose validator approves exactly at iteration `N`
(rejecting before), with all side effects succeeding. -/
def envApproveAt (N : Nat) : Env :=
  { maxIter := 3, searchOutcome := none,
    gen := fun _ => .ok fallbackReportDraft,
    val := fun i => if i = N then approveVR else rejectVR,
    persistOutcome := none, indexOutcome := none, pdfOutcome := none }

/-- An environment whose validator rejects every iteration. -/
def envAllReject : Env :=
  { maxIter := 3, searchOutcome := none,
    gen := fun _ => .ok fallbackReportDraft,
    val := fun _ => rejectVR,
    persistOutcome := none, indexOutcome := none, pdfOutcome := none }

/-- An environment whose validator raises internally on every iteration,
so the controller sees the fail-open verdict. -/
def envValRaises : Env :=
  { maxIter := 3, searchOutcome := none,
    gen := fun _ => .ok fallbackReportDraft,
    val := fun _ => validatorExecute (.raises "judge timeout"),
    persistOutcome := none, indexOutcome := none, pdfOutcome := none }

/-- An environment whose generator's LLM call raises on every iteration. -/
def envGenFails : Env :=
  { maxIter := 3, searchOutcome := none,
    gen := fun _ => reportAgentExecute (.llmRaises "API connection error"),
    val := fun _ => approveVR,
    persistOutcome := none, indexOutcome := none, pdfOutcome := none }

/-- An environment that reaches the approved terminal state but whose
JSON-file save raises. -/
def envPersistFails : Env :=
  { maxIter := 3, searchOutcome := none,
    gen := fun _ => .ok fallbackReportDraft,
    val := fun _ => approveVR,
    persistOutcome := some "OSError: disk full", indexOutcome := none,
    pdfOutcome := none }

/-- Sixteen search results with pairwise distinct URLs, enough to trigger
the LLM re-ranking pass of `_filter_results`. -/
def cexItems : List SearchItem :=
  (List.range 16).map fun i =>
    { url := "https://example.com/" ++ Nat.repr i, title := "t", snippet := "s" }

/-- A ranking response that repeats the same URL twice. -/
def cexRank : RankOutcome :=
  RankOutcome.ranked ["https://example.com/0", "https://example.com/0"]

/-- A generator response that parses as JSON (`{}`) but violates the Draft
schema: all four sections absent. -/
def emptyParsedDraft : Draft :=
  { summary := none, legal_changes := none, route_impacts := none,
    recommended_actions := none }

/-- A judge payload that carries its own `success` key set to `false`. -/
def cexPayload : JudgePayload :=
  { is_approved := some true, quality_score := some 90,
    feedback := some "fine", issues := some [], success := some false }

/-! ### Step lemmas for the generate/validate loop -/

theorem runLoopAux_zero (gen : Nat → GenOutcome) (val : Nat → ValidatorResult)
    (maxIter count : Nat) (history : List ValidationEntry)
    (content : Option Draft) (prev : Option String) :
    runLoopAux gen val maxIter 0 count history content prev =
      .done content count history := rfl

theorem runLoopAux_stop (gen : Nat → GenOutcome) (val : Nat → ValidatorResult)
    (maxIter fuel count : Nat) (history : List ValidationEntry)
    (content : Option Draft) (prev : Option String)
    (h : ¬ count < maxIter) :
    runLoopAux gen val maxIter (fuel + 1) count history content prev =
      .done content count history := by
  simp [runLoopAux, h]

theorem runLoopAux_genFail (gen : Nat → GenOutcome) (val : Nat → ValidatorResult)
    (maxIter fuel count : Nat) (history : List ValidationEntry)
    (content : Option Draft) (prev : Option String) (e : String)
    (h : count < maxIter) (hg : gen (count + 1) = .fail e) :
    runLoopAux gen val maxIter (fuel + 1) count history content prev =
      .raised ("Report generation failed: " ++ e) (count + 1) history := by
  simp [runLoopAux, h, hg]

theorem runLoopAux_approved (gen : Nat → GenOutcome) (val : Nat → ValidatorResult)
    (maxIter fuel count : Nat) (history : List ValidationEntry)
    (content : Option Draft) (prev : Option String) (d : Draft)
    (h : count < maxIter) (hg : gen (count + 1) = .ok d)
    (hv : (val (count + 1)).is_approved = true) :
    runLoopAux gen val maxIter (fuel + 1) count history content prev =
      .done (some d) (count + 1)
        (history ++ [mkEntry (val (count + 1)) (count + 1)]) := by
  simp [runLoopAux, h, hg, hv]

theorem runLoopAux_rejected_break (gen : Nat → GenOutcome)
    (val : Nat → ValidatorResult)
    (maxIter fuel count : Nat) (history : List ValidationEntry)
    (content : Option Draft) (prev : Option String) (d : Draft)
    (h : count < maxIter) (hg : gen (count + 1) = .ok d)
    (hv : (val (count + 1)).is_approved = false) (hmax : maxIter ≤ count + 1) :
    runLoopAux gen val maxIter (fuel + 1) count history content prev =
      .done (some d) (count + 1)
        (history ++ [mkEntry (val (count + 1)) (count + 1)]) := by
  simp [runLoopAux, h, hg, hv, hmax]

theorem runLoopAux_rejected_next (gen : Nat → GenOutcome)
    (val : Nat → ValidatorResult)
    (maxIter fuel count : Nat) (history : List ValidationEntry)
    (content : Option Draft) (prev : Option String) (d : Draft)
    (h : count < maxIter) (hg : gen (count + 1) = .ok d)
    (hv : (val (count + 1)).is_approved = false) (hmax : ¬ maxIter ≤ count + 1) :
    runLoopAux gen val maxIter (fuel + 1) count history content prev =
      runLoopAux gen val maxIter fuel (count + 1)
        (history ++ [mkEntry (val (count + 1)) (count + 1)]) (some d)
        (some (val (count + 1)).feedback) := by
  simp [runLoopAux, h, hg, hv, hmax]

/-! ### Main induction lemmas for the loop -/

theorem runLoopAux_inv (gen : Nat → GenOutcome) (val : Nat → ValidatorResult)
    (maxIter : Nat) :
    ∀ fuel count history content prev, count ≤ maxIter → history.length ≤ count →
      (runLoopAux gen val maxIter fuel count history content prev).count ≤ maxIter ∧
      (runLoopAux gen val maxIter fuel count history content prev).history.length ≤
        (runLoopAux gen val maxIter fuel count history content prev).count := by
  intro fuel
  induction fuel with
  | zero =>
    intro count history content prev h1 h2
    rw [runLoopAux_zero]
    exact ⟨h1, h2⟩
  | succ n ih =>
    intro count history content prev h1 h2
    by_cases hlt : count < maxIter
    · cases hg : gen (count + 1) with
      | fail e =>
        rw [runLoopAux_genFail gen val maxIter n count history content prev e hlt hg]
        simp only [LoopResult.count, LoopResult.history]
        omega
      | ok d =>
        by_cases hv : (val (count + 1)).is_approved = true
        · rw [runLoopAux_approved gen val maxIter n count history content prev d
            hlt hg hv]
          simp only [LoopResult.count, LoopResult.history, List.length_append,
            List.length_singleton]
          omega
        · have hv' : (val (count + 1)).is_approved = false := by
            simpa using hv
          by_cases hmax : maxIter ≤ count + 1
          · rw [runLoopAux_rejected_break gen val maxIter n count history content
              prev d hlt hg hv' hmax]
            simp only [LoopResult.count, LoopResult.history, List.length_append,
              List.length_singleton]
            omega
          · rw [runLoopAux_rejected_next gen val maxIter n count history content
              prev d hlt hg hv' hmax]
            refine ih (count + 1) _ (some d) (some (val (count + 1)).feedback)
              (by omega) ?_
            simp only [List.length_append, List.length_singleton]
            omega
    · rw [runLoopAux_stop gen val maxIter n count history content prev hlt]
      exact ⟨h1, h2⟩

theorem runLoopAux_first_approval (gen : Nat → GenOutcome)
    (val : Nat → ValidatorResult) (maxIter N : Nat)
    (hgen : ∀ i, (gen i).isOk = true)
    (hvalN : (val N).is_approved = true)
    (hNle : N ≤ maxIter) :
    ∀ fuel count history content prev,
      count < N → N ≤ count + fuel →
      (∀ i, count < i → i < N → (val i).is_approved = false) →
      ∃ d tail,
        runLoopAux gen val maxIter fuel count history content prev =
          .done (some d) N (history ++ tail) ∧ tail.length = N - count := by
  intro fuel
  induction fuel with
  | zero =>
    intro count history content prev hcN hfuel _
    omega
  | succ n ih =>
    intro count history content prev hcN hfuel hrej
    have hlt : count < maxIter := by omega
    cases hg : gen (count + 1) with
    | fail e =>
      have hok := hgen (count + 1)
      rw [hg] at hok
      simp [GenOutcome.isOk] at hok
    | ok d =>
      by_cases hN : count + 1 = N
      · have hv : (val (count + 1)).is_approved = true := by rw [hN]; exact hvalN
        rw [runLoopAux_approved gen val maxIter n count history content prev d
          hlt hg hv]
        exact ⟨d, [mkEntry (val (count + 1)) (count + 1)], by rw [hN],
          by simp; omega⟩
      · have hlt2 : count + 1 < N := by omega
        have hv : (val (count + 1)).is_approved = false :=
          hrej (count + 1) (by omega) hlt2
        have hmax : ¬ maxIter ≤ count + 1 := by omega
        rw [runLoopAux_rejected_next gen val maxIter n count history content
          prev d hlt hg hv hmax]
        obtain ⟨d', tail, heq, hlen⟩ :=
          ih (count + 1) (history ++ [mkEntry (val (count + 1)) (count + 1)])
            (some d) (some (val (count + 1)).feedback) hlt2 (by omega)
            (fun i h1 h2 => hrej i (by omega) h2)
        refine ⟨d', mkEntry (val (count + 1)) (count + 1) :: tail, ?_, ?_⟩
        · rw [heq, List.append_assoc]
          rfl
        · simp only [List.length_cons]
          omega

theorem runLoopAux_all_rejected (gen : Nat → GenOutcome)
    (val : Nat → ValidatorResult) (maxIter : Nat) (drafts : Nat → Draft)
    (hgen : ∀ i, gen i = .ok (drafts i))
    (hval : ∀ i, (val i).is_approved = false) :
    ∀ fuel count history content prev,
      count < maxIter → maxIter ≤ count + fuel →
      ∃ tail,
        runLoopAux gen val maxIter fuel count history content prev =
          .done (some (drafts maxIter)) maxIter (history ++ tail) ∧
        tail.length = maxIter - count ∧
        ∀ e ∈ tail, e.is_approved = false := by
  intro fuel
  induction fuel with
  | zero =>
    intro count history content prev hlt hfuel
    omega
  | succ n ih =>
    intro count history content prev hlt hfuel
    have hg := hgen (count + 1)
    have hv := hval (count + 1)
    by_cases hmax : maxIter ≤ count + 1
    · have hEq : count + 1 = maxIter := by omega
      rw [runLoopAux_rejected_break gen val maxIter n count history content prev
        (drafts (count + 1)) hlt hg hv hmax]
      rw [hEq]
      refine ⟨[mkEntry (val maxIter) maxIter], rfl, by simp; omega, ?_⟩
      intro e he
      simp only [List.mem_singleton] at he
      rw [he, ← hEq]
      simpa [mkEntry] using hv
    · rw [runLoopAux_rejected_next gen val maxIter n count history content prev
        (drafts (count + 1)) hlt hg hv hmax]
      obtain ⟨tail, heq, hlen, hall⟩ :=
        ih (count + 1) (history ++ [mkEntry (val (count + 1)) (count + 1)])
          (some (drafts (count + 1))) (some (val (count + 1)).feedback)
          (by omega) (by omega)
      refine ⟨mkEntry (val (count + 1)) (count + 1) :: tail, ?_, ?_, ?_⟩
      · rw [heq, List.append_assoc]
        rfl
      · simp only [List.length_cons]
        omega
      · intro e he
        rcases List.mem_cons.mp he with h | h
        · rw [h]
          simpa [mkEntry] using hv
        · exact hall e h

theorem runLoopAux_done_some (gen : Nat → GenOutcome)
    (val : Nat → ValidatorResult) (maxIter : Nat)
    (hgen : ∀ i, (gen i).isOk = true) :
    ∀ fuel count history d prev,
      ∃ d' c h,
        runLoopAux gen val maxIter fuel count history (some d) prev =
          .done (some d') c h := by
  intro fuel
  induction fuel with
  | zero =>
    intro count history d prev
    exact ⟨d, count, history, runLoopAux_zero _ _ _ _ _ _ _⟩
  | succ n ih =>
    intro count history d prev
    by_cases hlt : count < maxIter
    · cases hg : gen (count + 1) with
      | fail e =>
        have hok := hgen (count + 1)
        rw [hg] at hok
        simp [GenOutcome.isOk] at hok
      | ok d2 =>
        by_cases hv : (val (count + 1)).is_approved = true
        · exact ⟨d2, count + 1, _,
            runLoopAux_approved gen val maxIter n count history (some d) prev d2
              hlt hg hv⟩
        · have hv' : (val (count + 1)).is_approved = false := by simpa using hv
          by_cases hmax : maxIter ≤ count + 1
          · exact ⟨d2, count + 1, _,
              runLoopAux_rejected_break gen val maxIter n count history (some d)
                prev d2 hlt hg hv' hmax⟩
          · rw [runLoopAux_rejected_next gen val maxIter n count history (some d)
              prev d2 hlt hg hv' hmax]
            exact ih (count + 1) _ d2 (some (val (count + 1)).feedback)
    · exact ⟨d, count, history,
        runLoopAux_stop gen val maxIter n count history (some d) prev hlt⟩

/-! ### Service-level helper lemmas -/

theorem runLoop_inv (gen : Nat → GenOutcome) (val : Nat → ValidatorResult)
    (maxIter : Nat) :
    (runLoop gen val maxIter 0 [] none none).count ≤ maxIter ∧
    (runLoop gen val maxIter 0 [] none none).history.length ≤
      (runLoop gen val maxIter 0 [] none none).count :=
  runLoopAux_inv gen val maxIter (maxIter - 0) 0 [] none none (by omega) (by simp)

theorem runLoop_start_done_some (gen : Nat → GenOutcome)
    (val : Nat → ValidatorResult) (maxIter : Nat)
    (hgen : ∀ i, (gen i).isOk = true) (hmax : 1 ≤ maxIter) :
    ∃ d c h, runLoop gen val maxIter 0 [] none none = .done (some d) c h := by
  unfold runLoop
  rw [Nat.sub_zero]
  obtain ⟨m, rfl⟩ : ∃ m, maxIter = m + 1 := ⟨maxIter - 1, by omega⟩
  have hlt : 0 < m + 1 := by omega
  cases hg : gen 1 with
  | fail e =>
    have hok := hgen 1
    rw [hg] at hok
    simp [GenOutcome.isOk] at hok
  | ok d =>
    by_cases hv : (val 1).is_approved = true
    · exact ⟨d, 1, _,
        runLoopAux_approved gen val (m + 1) m 0 [] none none d hlt hg hv⟩
    · have hv' : (val 1).is_approved = false := by simpa using hv
      by_cases hmax2 : m + 1 ≤ 1
      · exact ⟨d, 1, _,
          runLoopAux_rejected_break gen val (m + 1) m 0 [] none none d hlt hg
            hv' hmax2⟩
      · rw [runLoopAux_rejected_next gen val (m + 1) m 0 [] none none d hlt hg
          hv' hmax2]
        exact runLoopAux_done_some gen val (m + 1) hgen m 1 _ d _

/-- Every call of `generate_report` returns the construction-failure
record: the agent-construction step raises `TypeError` before the search
phase, so the outer except branch runs with counter 0 and empty history. -/
theorem generateReport_always_fails (env : Env) :
    generateReport env = mkFailed agentConstructionError 0 [] := rfl

/-! ### Deduplication lemmas for the search agent -/

theorem dedupeGo_sublist :
    ∀ (rs : List SearchItem) (seen : List String),
      (dedupeGo seen rs).Sublist rs := by
  intro rs
  induction rs with
  | nil => intro seen; simp [dedupeGo]
  | cons r rest ih =>
    intro seen
    by_cases h : r.url ∈ seen
    · simp only [dedupeGo, if_pos h]
      exact (ih seen).cons r
    · simp only [dedupeGo, if_neg h]
      exact (ih (r.url :: seen)).cons₂ r

theorem dedupeGo_nodup_not_seen :
    ∀ (rs : List SearchItem) (seen : List String),
      ((dedupeGo seen rs).map SearchItem.url).Nodup ∧
      ∀ r ∈ dedupeGo seen rs, r.url ∉ seen := by
  intro rs
  induction rs with
  | nil => intro seen; simp [dedupeGo]
  | cons r rest ih =>
    intro seen
    by_cases h : r.url ∈ seen
    · simpa only [dedupeGo, if_pos h] using ih seen
    · simp only [dedupeGo, if_neg h, List.map_cons]
      obtain ⟨hnd, hns⟩ := ih (r.url :: seen)
      refine ⟨List.nodup_cons.mpr ⟨?_, hnd⟩, ?_⟩
      · intro hmem
        obtain ⟨x, hx, hxu⟩ := List.mem_map.mp hmem
        exact hns x hx (by rw [hxu]; exact List.mem_cons_self _ _)
      · intro x hx
        rcases List.mem_cons.mp hx with rfl | hx'
        · exact h
        · intro hseen
          exact hns x hx' (List.mem_cons_of_mem _ hseen)

theorem dedupeGo_first :
    ∀ (rs : List SearchItem) (seen : List String) (r : SearchItem),
      r ∈ dedupeGo seen rs →
      rs.find? (fun x => x.url == r.url) = some r := by
  intro rs
  induction rs with
  | nil => intro seen r h; simp [dedupeGo] at h
  | cons y rest ih =>
    intro seen r hr
    by_cases h : y.url ∈ seen
    · simp only [dedupeGo, if_pos h] at hr
      have hnotseen := (dedupeGo_nodup_not_seen rest seen).2 r hr
      have hne : y.url ≠ r.url := by
        intro he
        rw [he] at h
        exact hnotseen h
      rw [List.find?_cons_of_neg _ (by simp [hne])]
      exact ih seen r hr
    · simp only [dedupeGo, if_neg h] at hr
      rcases List.mem_cons.mp hr with rfl | hr'
      · rw [List.find?_cons_of_pos _ (by simp)]
      · have hnotseen := (dedupeGo_nodup_not_seen rest (y.url :: seen)).2 r hr'
        have hne : y.url ≠ r.url := by
          intro he
          exact hnotseen (by rw [← he]; exact List.mem_cons_self _ _)
        rw [List.find?_cons_of_neg _ (by simp [hne])]
        exact ih _ r hr'

theorem dedupeGo_complete :
    ∀ (rs : List SearchItem) (seen : List String) (r : SearchItem),
      r ∈ rs → r.url ∉ seen →
      ∃ r' ∈ dedupeGo seen rs, r'.url = r.url := by
  intro rs
  induction rs with
  | nil => intro seen r h _; simp at h
  | cons y rest ih =>
    intro seen r hr hns
    by_cases h : y.url ∈ seen
    · simp only [dedupeGo, if_pos h]
      rcases List.mem_cons.mp hr with rfl | hr'
      · exact absurd h hns
      · exact ih seen r hr' hns
    · simp only [dedupeGo, if_neg h]
      by_cases hu : r.url = y.url
      · exact ⟨y, List.mem_cons_self _ _, hu.symm⟩
      · rcases List.mem_cons.mp hr with rfl | hr'
        · exact absurd rfl hu
        · obtain ⟨r', hr'', hu'⟩ := ih (y.url :: seen) r hr'
            (by simp [hu, hns])
          exact ⟨r', List.mem_cons_of_mem _ hr'', hu'⟩

theorem lookupLast_url (rs : List SearchItem) (u : String) (r : SearchItem)
    (h : lookupLast rs u = some r) : r.url = u := by
  have := List.find?_some h
  simpa using this

theorem map_url_filterMap_lookupLast (rs : List SearchItem) :
    ∀ urls : List String,
      ((urls.filterMap (lookupLast rs)).map SearchItem.url) =
        urls.filter (fun u => (lookupLast rs u).isSome) := by
  intro urls
  induction urls with
  | nil => simp
  | cons u rest ih =>
    cases h : lookupLast rs u with
    | none => simp [List.filterMap_cons, h, List.filter_cons, ih]
    | some r =>
      simp [List.filterMap_cons, h, List.filter_cons, ih,
        lookupLast_url rs u r h]

theorem filterResults_nodup (rs : List SearchItem) (rank : RankOutcome)
    (hnd : noDupUrls rs)
    (hok : rank = RankOutcome.errored ∨ rs.length ≤ 15 ∨
      ∃ urls, rank = RankOutcome.ranked urls ∧ urls.Nodup) :
    noDupUrls (filterResults rs rank) := by
  unfold filterResults
  by_cases hlen : rs.length ≤ 15
  · simpa [hlen]
  · simp only [if_neg hlen]
    cases rank with
    | errored =>
      unfold noDupUrls
      rw [List.map_take]
      exact hnd.sublist (List.take_sublist _ _)
    | ranked urls =>
      rcases hok with h | h | ⟨urls', heq, hnd'⟩
      · cases h
      · omega
      · cases heq
        unfold noDupUrls
        rw [List.map_take, map_url_filterMap_lookupLast]
        exact (hnd'.filter _).sublist (List.take_sublist _ _)

/-! ### Claim theorems -/

/-- Claim C1 (code bug): the claim matches the generate/validate loop
logic of `generate_report` (lines 92-139) — at the C1 scenario input
(first approval on attempt 2, cap 3) the loop performs exactly 2 rounds
and exits right after the second validation — but the real
`generate_report` never reaches the loop: agent construction (lines 63-71)
raises `TypeError` on every call, so the returned record is `"failed"`
with `iteration_count` 0 and empty history, never `"approved"` with
`iteration_count = N`. -/
theorem claim1_construction_failure :
    (runLoop (envApproveAt 2).gen (envApproveAt 2).val (envApproveAt 2).maxIter
       0 [] none none).count = 2 ∧
    (runLoop (envApproveAt 2).gen (envApproveAt 2).val (envApproveAt 2).maxIter
       0 [] none none).history.length = 2 ∧
    (generateReport (envApproveAt 2)).success = false ∧
    (generateReport (envApproveAt 2)).report.status = "failed" ∧
    (generateReport (envApproveAt 2)).report.iteration_count = 0 ∧
    (generateReport (envApproveAt 2)).report.error =
      some agentConstructionError :=
  ⟨rfl, rfl, rfl, rfl, rfl, rfl⟩

/-- Claim C2 (code bug): the claim matches the loop logic — at the
all-rejecting scenario with cap 3 the loop performs exactly 3 rounds,
accepts the last draft anyway and records 3 rejections — but the real
`generate_report` never reaches the loop: agent construction raises
`TypeError` first, so every run returns `"failed"` with 0 iterations and
empty history instead of the exhausted-but-accepted record. -/
theorem claim2_construction_failure :
    runLoop envAllReject.gen envAllReject.val envAllReject.maxIter 0 [] none
        none =
      .done (some fallbackReportDraft) 3
        [mkEntry rejectVR 1, mkEntry rejectVR 2, mkEntry rejectVR 3] ∧
    (generateReport envAllReject).success = false ∧
    (generateReport envAllReject).report.status = "failed" ∧
    (generateReport envAllReject).report.iteration_count = 0 ∧
    (generateReport envAllReject).report.validation_history = [] :=
  ⟨rfl, rfl, rfl, rfl, rfl⟩

/-- Counterexample to C3 as stated: a malformed judge response is an
internal validator failure, yet the verdict then carries
`quality_score = 80` (the parse fallback of `_validate_report`), not 0. -/
theorem claim3_counterexample :
    (validatorExecute (JudgeOutcome.malformed "not json")).is_approved = true ∧
    (validatorExecute (JudgeOutcome.malformed "not json")).quality_score ≠ 0 :=
  ⟨rfl, by decide⟩

/-- Claim C3 (amended): `ValidatorAgent.execute` never raises and fails
open, but the two error paths differ: a raised exception yields
`is_approved = true` with `quality_score = 0`, while a malformed judge
response yields `is_approved = true` with `quality_score = 80`; both carry
a non-empty feedback string. In the controller loop logic a fail-open
verdict at iteration 1 ends the loop after exactly 1 round; no current run
reaches that loop, since `generate_report` fails at agent construction
with `TypeError` and 0 iterations. -/
theorem claim3_fail_open_amended (gen : Nat → GenOutcome)
    (val : Nat → ValidatorResult) (maxIter : Nat) (err : String)
    (hgen : ∀ i, (gen i).isOk = true)
    (hmax : 1 ≤ maxIter)
    (hval1 : val 1 = validatorExecute (.raises err)) :
    (∀ e, (validatorExecute (.raises e)).is_approved = true ∧
          (validatorExecute (.raises e)).quality_score = 0 ∧
          (validatorExecute (.raises e)).feedback ≠ "") ∧
    (∀ raw, (validatorExecute (.malformed raw)).is_approved = true ∧
            (validatorExecute (.malformed raw)).quality_score = 80 ∧
            (validatorExecute (.malformed raw)).feedback ≠ "") ∧
    ((runLoop gen val maxIter 0 [] none none).count = 1 ∧
     (runLoop gen val maxIter 0 [] none none).history.length = 1) ∧
    (∀ env : Env, (generateReport env).report.status = "failed" ∧
       (generateReport env).report.iteration_count = 0) := by
  refine ⟨?_, ?_, ?_, fun env => ⟨rfl, rfl⟩⟩
  · intro e
    refine ⟨rfl, rfl, ?_⟩
    show ("Validation skipped due to error" : String) ≠ ""
    decide
  · intro raw
    refine ⟨rfl, rfl, ?_⟩
    show ("Report meets quality standards" : String) ≠ ""
    decide
  · have hval1' : (val 1).is_approved = true := by rw [hval1]; rfl
    obtain ⟨d, tail, heq, hlen⟩ :=
      runLoopAux_first_approval gen val maxIter 1 hgen hval1'
        (by omega) maxIter 0 [] none none (by omega) (by omega)
        (fun i h1 h2 => absurd h2 (by omega))
    have hloop : runLoop gen val maxIter 0 [] none none =
        .done (some d) 1 ([] ++ tail) := by
      unfold runLoop
      rw [Nat.sub_zero]
      exact heq
    rw [hloop]
    refine ⟨rfl, ?_⟩
    simp only [LoopResult.history, List.nil_append]
    omega

/-- Witness for C3 (amended) at a concrete fail-open loop and run. -/
theorem claim3_witness :
    (validatorExecute (.raises "judge timeout")).is_approved = true ∧
    (validatorExecute (.raises "judge timeout")).quality_score = 0 ∧
    (runLoop envValRaises.gen envValRaises.val envValRaises.maxIter 0 []
       none none).count = 1 ∧
    (generateReport envValRaises).report.status = "failed" ∧
    (generateReport envValRaises).report.iteration_count = 0 :=
  have h := claim3_fail_open_amended envValRaises.gen envValRaises.val
    envValRaises.maxIter "judge timeout" (fun _ => rfl) (by decide) rfl
  ⟨(h.1 "judge timeout").1, (h.1 "judge timeout").2.1, h.2.2.1.1,
   (h.2.2.2 envValRaises).1, (h.2.2.2 envValRaises).2⟩

/-- Counterexample to C4 as stated: an exception in the generator LLM
call is not absorbed into a fallback draft — `execute` returns
`success=False` — and in the loop logic of `generate_report` that makes
the round raise `"Report generation failed"` with no validation entry, so
GENERATING does not always lead to VALIDATING. -/
theorem claim4_counterexample :
    reportAgentExecute (GenInternalOutcome.llmRaises "API connection error") =
      GenOutcome.fail "API connection error" ∧
    runLoop envGenFails.gen envGenFails.val envGenFails.maxIter 0 [] none
        none =
      .raised ("Report generation failed: " ++ "API connection error") 1 [] :=
  ⟨rfl, rfl⟩

/-- Claim C4 (amended): only malformed generator output is absorbed into
the well-typed fallback draft (and a parsed draft passes through); an
exception inside the generator — e.g. a failing LLM call — makes `execute`
return `success=False`, upon which the loop logic of `generate_report`
raises and records no validation round. Independently, no current run
reaches the generator at all: `generate_report` fails at agent
construction. -/
theorem claim4_generator_fallback_amended :
    (∀ raw, reportAgentExecute (.responseUnparseable raw) =
       .ok fallbackReportDraft) ∧
    (∀ d, reportAgentExecute (.responseParsed d) = .ok d) ∧
    (∀ e, reportAgentExecute (.llmRaises e) = .fail e) ∧
    (∀ (gen : Nat → GenOutcome) (val : Nat → ValidatorResult)
       (maxIter : Nat) (e : String), gen 1 = .fail e → 1 ≤ maxIter →
       runLoop gen val maxIter 0 [] none none =
         .raised ("Report generation failed: " ++ e) 1 []) ∧
    (∀ env : Env, (generateReport env).success = false) := by
  refine ⟨fun _ => rfl, fun _ => rfl, fun _ => rfl, ?_, fun _ => rfl⟩
  intro gen val maxIter e hg hmax
  obtain ⟨m, hm⟩ : ∃ m, maxIter = m + 1 := ⟨maxIter - 1, by omega⟩
  unfold runLoop
  rw [Nat.sub_zero, hm]
  exact runLoopAux_genFail gen val (m + 1) m 0 [] none none e (by omega) hg

/-- Witness for C4 (amended) at concrete outcomes and the concrete
generator-failing loop. -/
theorem claim4_witness :
    reportAgentExecute (.responseUnparseable "oops") = .ok fallbackReportDraft ∧
    runLoop envGenFails.gen envGenFails.val envGenFails.maxIter 0 [] none
        none =
      .raised ("Report generation failed: " ++ "API connection error") 1 [] ∧
    (generateReport envGenFails).success = false :=
  ⟨claim4_generator_fallback_amended.1 "oops",
   claim4_generator_fallback_amended.2.2.2.1 envGenFails.gen envGenFails.val
     envGenFails.maxIter "API connection error" rfl (by decide),
   claim4_generator_fallback_amended.2.2.2.2 envGenFails⟩

/-- Counterexample to C5 as stated: with 16 merged results (so the
re-ranking pass runs) and a ranking response repeating one URL, the
gatherer's output contains the same item twice. -/
theorem claim5_counterexample :
    ¬ noDupUrls (searchAgentGather [some cexItems] cexRank) := by decide

/-- Claim C5 (amended): the merge step `_execute_searches` always returns a
URL-duplicate-free list, keeping for each URL the first-seen item in
arrival order (its output is a sublist of the merged results, each kept
item is the first with its URL, and every merged URL is represented); the
re-ranking step `_filter_results` preserves URL-uniqueness when the result
set is small, when the ranking pass errors out, or when the model's ranked
URL list has no repeats — but not in general, as a repeated ranked URL
duplicates an item. -/
theorem claim5_dedup_amended :
    (∀ perQuery : List (Option (List SearchItem)),
       noDupUrls (executeSearches perQuery) ∧
       (executeSearches perQuery).Sublist (perQuery.filterMap id).flatten ∧
       (∀ r ∈ executeSearches perQuery,
          ((perQuery.filterMap id).flatten).find?
            (fun x => x.url == r.url) = some r) ∧
       (∀ r ∈ (perQuery.filterMap id).flatten,
          ∃ r' ∈ executeSearches perQuery, r'.url = r.url)) ∧
    (∀ (rs : List SearchItem) (rank : RankOutcome), noDupUrls rs →
       (rank = RankOutcome.errored ∨ rs.length ≤ 15 ∨
        ∃ urls, rank = RankOutcome.ranked urls ∧ urls.Nodup) →
       noDupUrls (filterResults rs rank)) := by
  constructor
  · intro perQuery
    refine ⟨(dedupeGo_nodup_not_seen _ []).1, dedupeGo_sublist _ [], ?_, ?_⟩
    · intro r hr
      exact dedupeGo_first _ [] r hr
    · intro r hr
      exact dedupeGo_complete _ [] r hr (by simp)
  · exact filterResults_nodup

/-- Witness for C5 (amended) at concrete inputs. -/
theorem claim5_witness :
    noDupUrls (executeSearches [some cexItems]) ∧
    noDupUrls (filterResults cexItems RankOutcome.errored) :=
  ⟨(claim5_dedup_amended.1 [some cexItems]).1,
   claim5_dedup_amended.2 cexItems RankOutcome.errored (by decide)
     (Or.inl rfl)⟩

/-- Counterexample to C6 as stated: a generator response that parses as
JSON but omits all four sections (a parsed `{}`) is returned as-is — no
section is repaired to a default — and it violates the minimum-schema
invariant. -/
theorem claim6_counterexample :
    generateReportInner (GenInternalOutcome.responseParsed emptyParsedDraft) =
      .ok emptyParsedDraft ∧
    ¬ draftMinSchema emptyParsedDraft :=
  ⟨rfl, fun h => by simp [draftMinSchema, emptyParsedDraft] at h⟩

/-- Claim C6 (amended): only a response that fails to parse as JSON is
replaced by the minimal valid draft, which satisfies the minimum-schema
invariant (all four sections present, risk levels valid); a response that
parses but violates the schema — absent sections or invalid risk levels —
is returned as-is, unrepaired. -/
theorem claim6_parse_only_repair_amended :
    (∀ raw, generateReportInner (GenInternalOutcome.responseUnparseable raw) =
       .ok fallbackReportDraft) ∧
    draftMinSchema fallbackReportDraft ∧
    (∀ d, generateReportInner (GenInternalOutcome.responseParsed d) =
       .ok d) := by
  refine ⟨fun _ => rfl, ?_, fun _ => rfl⟩
  simp [draftMinSchema, fallbackReportDraft, validRisk]

/-- Witness for C6 (amended) at concrete responses. -/
theorem claim6_witness :
    generateReportInner (GenInternalOutcome.responseUnparseable "bad json") =
      .ok fallbackReportDraft ∧
    generateReportInner (GenInternalOutcome.responseParsed emptyParsedDraft) =
      .ok emptyParsedDraft :=
  ⟨claim6_parse_only_repair_amended.1 "bad json",
   claim6_parse_only_repair_amended.2.2 emptyParsedDraft⟩

/-- Counterexample to C7 as stated: at the commit code itself, given an
accepted terminal state (an approved draft after 1 round), a failure
saving the JSON record produces a failed result, not `success=true` — the
persist step is not absorbed. -/
theorem claim7_counterexample :
    envPersistFails.persistOutcome.isSome = true ∧
    (commitPhase envPersistFails (some fallbackReportDraft) 1
       [mkEntry approveVR 1]).success = false ∧
    (commitPhase envPersistFails (some fallbackReportDraft) 1
       [mkEntry approveVR 1]).report.status = "failed" :=
  ⟨rfl, rfl, rfl⟩

/-- Claim C7 (amended): in the commit code run after the loop, only a
PDF-rendering failure is absorbed (the result still has `success=true`,
with `has_pdf` recording the failure); a failure persisting the record or
indexing its content fails the run. Moreover no current run reaches the
commit phase at all: `generate_report` fails at agent construction with
`TypeError` before the search phase. -/
theorem claim7_commit_amended (env : Env) (d : Draft) (c : Nat)
    (h : List ValidationEntry) :
    (env.persistOutcome = none → env.indexOutcome = none →
       (commitPhase env (some d) c h).success = true ∧
       (commitPhase env (some d) c h).report.has_pdf =
         some env.pdfOutcome.isNone) ∧
    (∀ e, env.persistOutcome = some e →
       (commitPhase env (some d) c h).success = false) ∧
    (∀ e, env.persistOutcome = none → env.indexOutcome = some e →
       (commitPhase env (some d) c h).success = false) ∧
    ((generateReport env).success = false ∧
     (generateReport env).report.status = "failed") := by
  refine ⟨?_, ?_, ?_, ⟨rfl, rfl⟩⟩
  · intro hp hi
    simp [commitPhase, hp, hi]
  · intro e hp
    simp [commitPhase, hp, mkFailed]
  · intro e hp hi
    simp [commitPhase, hp, hi, mkFailed]

/-- Witness for C7 (amended) at a concrete environment with all commit
steps succeeding. -/
theorem claim7_witness :
    (commitPhase (envApproveAt 1) (some fallbackReportDraft) 1
       [mkEntry approveVR 1]).success = true ∧
    (commitPhase (envApproveAt 1) (some fallbackReportDraft) 1
       [mkEntry approveVR 1]).report.has_pdf = some true ∧
    (generateReport (envApproveAt 1)).success = false :=
  have h7 := claim7_commit_amended (envApproveAt 1) fallbackReportDraft 1
    [mkEntry approveVR 1]
  ⟨(h7.1 rfl rfl).1, (h7.1 rfl rfl).2, h7.2.2.2.1⟩

/-- Counterexample to C8 as stated: a query-generation response that parses
to the empty list yields no queries at all — the fixed fallback (which is
non-empty) is not applied. -/
theorem claim8_counterexample :
    generateSearchQueries (QueryGenOutcome.parsedList []) "ACME Logistics" =
      .ok ([] : List String) ∧
    fallbackQueries "ACME Logistics" ≠ [] :=
  ⟨rfl, by simp [fallbackQueries]⟩

/-- Claim C8 (amended): the fixed fallback queries (a non-empty set) are
used only when the response is unparseable JSON or parses to a non-list; a
parsed list is issued as-is even when empty, and an exception in the
query-generation model call propagates out of `_generate_search_queries`
(failing the search stage) instead of falling back. -/
theorem claim8_fallback_amended (companyName : String) :
    (∀ raw, generateSearchQueries (.unparseable raw) companyName =
       .ok (fallbackQueries companyName)) ∧
    (generateSearchQueries .parsedNonList companyName =
       .ok (fallbackQueries companyName)) ∧
    fallbackQueries companyName ≠ [] ∧
    (∀ qs, generateSearchQueries (.parsedList qs) companyName =
       .ok (qs.take 10)) ∧
    (∀ e, generateSearchQueries (.llmRaises e) companyName = .error e) := by
  refine ⟨fun _ => rfl, rfl, ?_, fun _ => rfl, fun _ => rfl⟩
  simp [fallbackQueries]

/-- Witness for C8 (amended) at a concrete company name and response. -/
theorem claim8_witness :
    generateSearchQueries (.unparseable "garbage") "ACME Logistics" =
      .ok (fallbackQueries "ACME Logistics") ∧
    fallbackQueries "ACME Logistics" ≠ [] :=
  have h := claim8_fallback_amended "ACME Logistics"
  ⟨h.1 "garbage", h.2.2.1⟩

/-- Claim C9: on every return path of `generate_report`, the iteration
counter never exceeds the configured cap and the validation history never
outgrows the iteration counter; both fields are the ones of the returned
record. -/
theorem claim9_iteration_history_bounds (env : Env) :
    (generateReport env).report.iteration_count ≤ env.maxIter ∧
    (generateReport env).report.validation_history.length ≤
      (generateReport env).report.iteration_count := by
  rw [generateReport_always_fails]
  refine ⟨?_, ?_⟩ <;> simp [mkFailed]

/-- Witness for C9 at a concrete environment. -/
theorem claim9_witness :
    (generateReport envAllReject).report.iteration_count ≤
      envAllReject.maxIter ∧
    (generateReport envAllReject).report.validation_history.length ≤
      (generateReport envAllReject).report.iteration_count :=
  claim9_iteration_history_bounds envAllReject

/-- Counterexample to C10 as stated: a judge payload carrying its own
`success` key set to `false` overrides the literal `True` in
`{"success": True, **validation_result}`, so the controller observes a
result whose `success` field is false. -/
theorem claim10_counterexample :
    (validatorExecute (JudgeOutcome.parsed cexPayload)).success = false := rfl

/-- Claim C10 (amended): `ValidatorAgent.execute` is total (every judge
outcome maps to a result dictionary) and its `success` field is `true` on
both error paths unconditionally, and on the normal path exactly when the
parsed judge payload does not itself carry a `success` key set to false. -/
theorem claim10_success_flag_amended :
    (∀ e, (validatorExecute (JudgeOutcome.raises e)).success = true) ∧
    (∀ raw, (validatorExecute (JudgeOutcome.malformed raw)).success = true) ∧
    (∀ p, (validatorExecute (JudgeOutcome.parsed p)).success =
       p.success.getD true) :=
  ⟨fun _ => rfl, fun _ => rfl, fun _ => rfl⟩

/-- Witness for C10 (amended) at concrete judge outcomes. -/
theorem claim10_witness :
    (validatorExecute (JudgeOutcome.raises "timeout")).success = true ∧
    (validatorExecute (JudgeOutcome.malformed "not json")).success = true ∧
    (validatorExecute (JudgeOutcome.parsed cexPayload)).success =
      cexPayload.success.getD true :=
  ⟨claim10_success_flag_amended.1 "timeout",
   claim10_success_flag_amended.2.1 "not json",
   claim10_success_flag_amended.2.2 cexPayload⟩

end Logistix
